import Mathlib

/-!
Shallow embedding of the token-management core of
`src/agent_workspaces/accountant/freshbooks/freshbooks.py`
(class `FreshBooksClient`).

Modeling conventions:
* The persisted store (the `.env` file) is an association list of key/value
  strings; `set_key` follows python-dotenv (update in place, else append).
  The file is assumed to exist when `atomic_save_tokens` runs, so the backup
  branch guarded by `os.path.exists` is taken.
* Timestamps are integers; Python float parsing of the stored expiry string is
  modeled by `String.toInt?`, and `datetime.now().timestamp()` is an explicit
  `now : Int` parameter.
* Durable-write failures (exceptions from `set_key`) are driven by an oracle
  `wok : Nat → Bool` giving the success of the i-th `set_key` call; a raised
  exception is a `some`/`Except.error` value.
* Network effects are driven by oracles: the reply of the authorization
  server is an `AuthResponse` argument, and the API transport is
  `ExecEnv.http`, a function
  from (call index, request, Authorization header) to a response.
-/

/-- The persisted key-value store: the `.env` file as an association list. -/
abbrev Store := List (String × String)

/-- python-dotenv `set_key`: update the key in place if present, else append. -/
def set_key (store : Store) (k v : String) : Store :=
  if store.any (fun p => p.1 == k) then
    store.map (fun p => if p.1 == k then (k, v) else p)
  else
    store ++ [(k, v)]

/-- In-memory state of `FreshBooksClient`: the credential fields mutated by
`atomic_save_tokens`, plus the `Authorization` header entry of `self.headers`. -/
structure ClientState where
  account_id : String
  access_token : String
  refresh_token : Option String
  token_expires_at : Option String
  authHeader : String
deriving DecidableEq

/-- Python truthiness test for an optional string: `None` and `""` are falsy
(`if not self.refresh_token`, `if not self.token_expires_at`). -/
def pyFalsy : Option String → Bool
  | none => true
  | some s => s == ""

/-- The exception raised by a failing durable write: `idx` is which of the
three `set_key` calls raised. -/
structure SaveError where
  idx : Nat
deriving DecidableEq

/-- Observable outcome of `atomic_save_tokens`: the in-memory client state, the
store content, whether the `.env.backup` file is still present, and the
re-raised exception (if any). -/
structure SaveResult where
  client : ClientState
  store : Store
  backupExists : Bool
  error : Option SaveError
deriving DecidableEq

/-- `FreshBooksClient.atomic_save_tokens` (freshbooks.py lines 62-112).
A backup of the current store is taken; the three token keys are written with
`set_key`; on success the in-memory fields and `Authorization` header are
updated and the backup removed; if the i-th write raises (`wok i = false`) the
store is restored from the backup and the exception is re-raised. -/
def atomic_save_tokens (c : ClientState) (store : Store)
    (access refresh : String) (expires_in : Nat) (now : Int)
    (wok : Nat → Bool) : SaveResult :=
  let expires_at : Int := now + (expires_in : Int)
  let backup := store
  if wok 0 = false then
    { client := c, store := backup, backupExists := true, error := some ⟨0⟩ }
  else
    let s1 := set_key store "FRESHBOOKS_ACCESS_TOKEN" access
    if wok 1 = false then
      { client := c, store := backup, backupExists := true, error := some ⟨1⟩ }
    else
      let s2 := set_key s1 "FRESHBOOKS_REFRESH_TOKEN" refresh
      if wok 2 = false then
        { client := c, store := backup, backupExists := true, error := some ⟨2⟩ }
      else
        let s3 := set_key s2 "FRESHBOOKS_TOKEN_EXPIRES_AT" (toString expires_at)
        { client := { c with
            access_token := access,
            refresh_token := some refresh,
            token_expires_at := some (toString expires_at),
            authHeader := "Bearer " ++ access },
          store := s3, backupExists := false, error := none }

/-- `FreshBooksClient.is_token_expired` (freshbooks.py lines 114-124): true if
no expiry is stored (falsy), the stored expiry does not parse as a number, or
fewer than 300 seconds remain before expiry. -/
def is_token_expired (c : ClientState) (now : Int) : Bool :=
  match c.token_expires_at with
  | none => true
  | some s =>
    if s == "" then true
    else
      match s.toInt? with
      | none => true
      | some expires_at => decide (expires_at - 300 < now)

/-- JSON body of an authorization-server token response: the fields that
`refresh_access_token` reads with `.get`. -/
structure TokenBody where
  error : Option String
  access_token : Option String
  refresh_token : Option String
  expires_in : Option Nat
deriving DecidableEq

/-- An authorization-server HTTP response: status code plus parsed JSON body. -/
structure AuthResponse where
  status : Nat
  body : TokenBody
deriving DecidableEq

/-- The error taxonomy of `refresh_access_token` (named as in the spec; in the
source these are `ValueError`s / `HTTPError` / the re-raised save exception,
distinguished by their messages). -/
inductive RefreshError where
  | NoRefreshToken : RefreshError
  | RefreshTokenInvalid : RefreshError
  | AuthServerError : Nat → RefreshError
  | MalformedTokenResponse : RefreshError
  | PersistFailure : SaveError → RefreshError
deriving DecidableEq

/-- The exception messages of `refresh_access_token` as written in the source
(freshbooks.py lines 136-176); the `AuthServerError` message stands for the
`requests` `HTTPError` text and the `PersistFailure` message for the re-raised
save exception. -/
def errorMessage : RefreshError → String
  | .NoRefreshToken =>
      "No refresh token available - manual re-authentication required.\nRun: python freshbooks.py AUTH_CODE"
  | .RefreshTokenInvalid =>
      "Refresh token is invalid (already used or revoked).\nManual re-authentication required.\nThis usually happens when:\n1. The refresh token was used but new token wasn\x27t saved\n2. Multiple processes tried to refresh simultaneously\n3. The token was manually revoked\n\nTo fix: Get a new auth code and run: python freshbooks.py AUTH_CODE"
  | .AuthServerError s => "HTTP error " ++ toString s ++ " from the token endpoint"
  | .MalformedTokenResponse => "Invalid token response - missing access or refresh token"
  | .PersistFailure e => "ERROR saving tokens: set_key " ++ toString e.idx ++ " failed"

deriving instance DecidableEq for Except

/-- Observable outcome of `refresh_access_token`: the in-memory state and the
store after the call, the returned token data or raised error, and whether the
network call to the token endpoint was made. -/
structure RefreshResult where
  client : ClientState
  store : Store
  result : Except RefreshError TokenBody
  networkCalled : Bool
deriving DecidableEq

/-- The tail of `refresh_access_token` after the status checks
(freshbooks.py lines 167-181): extract the new pair, validate it, and save it
atomically; a save failure re-raises. -/
def processTokenData (c : ClientState) (store : Store) (body : TokenBody)
    (now : Int) (wok : Nat → Bool) : RefreshResult :=
  let new_access := body.access_token
  let new_refresh := body.refresh_token
  let expires_in := body.expires_in.getD 43200
  if pyFalsy new_access || pyFalsy new_refresh then
    { client := c, store := store, result := .error .MalformedTokenResponse,
      networkCalled := true }
  else
    let sr := atomic_save_tokens c store (new_access.getD "") (new_refresh.getD "")
      expires_in now wok
    match sr.error with
    | some e =>
      { client := sr.client, store := sr.store, result := .error (.PersistFailure e),
        networkCalled := true }
    | none =>
      { client := sr.client, store := sr.store, result := .ok body,
        networkCalled := true }

/-- `FreshBooksClient.refresh_access_token` (freshbooks.py lines 126-181).
Fails before any network call if no refresh token is held (Python-falsy).
Otherwise POSTs to the token endpoint (`resp` is the reply of the server): on a
non-200 status whose body carries `error = "invalid_grant"` raises the
invalid-refresh-token error; otherwise `raise_for_status` raises for 4xx/5xx;
any remaining response is processed as token data. -/
def refresh_access_token (c : ClientState) (store : Store)
    (resp : AuthResponse) (now : Int) (wok : Nat → Bool) : RefreshResult :=
  if pyFalsy c.refresh_token then
    { client := c, store := store, result := .error .NoRefreshToken,
      networkCalled := false }
  else if resp.status ≠ 200 then
    if resp.body.error = some "invalid_grant" then
      { client := c, store := store, result := .error .RefreshTokenInvalid,
        networkCalled := true }
    else if 400 ≤ resp.status ∧ resp.status < 600 then
      { client := c, store := store, result := .error (.AuthServerError resp.status),
        networkCalled := true }
    else
      processTokenData c store resp.body now wok
  else
    processTokenData c store resp.body now wok

/-- An outbound API request: HTTP method and URL. The body and query
parameters are opaque to the token core and are carried by the transport
oracle together with the request. -/
structure Req where
  method : String
  url : String
deriving DecidableEq

/-- A response from the API transport. -/
structure HttpResponse where
  status : Nat
  body : String
deriving DecidableEq

/-- Errors that `_make_request` can raise: a propagated reactive refresh
failure, or the `raise_for_status` HTTPError for a 4xx/5xx response. -/
inductive ExecError where
  | refreshFailed : RefreshError → ExecError
  | httpError : Nat → ExecError
deriving DecidableEq

/-- The environment of a `_make_request` call: the current time, the token
endpoint replies (indexed by how many refresh network calls happened so far),
the durable-write success oracle per refresh attempt, and the API transport
(indexed by 0 for the initial call and 1 for the retry). -/
structure ExecEnv where
  now : Int
  refreshResp : Nat → AuthResponse
  writeOk : Nat → Nat → Bool
  http : Nat → Req → String → HttpResponse

/-- State after the proactive (pre-call) phase of `_make_request`: in-memory
client, store, and how many refresh attempts were made. -/
structure PreState where
  client : ClientState
  store : Store
  refreshCalls : Nat
deriving DecidableEq

/-- Observable outcome of `_make_request`: final in-memory state and store, the
returned response or raised error, and the refresh / HTTP call counts. -/
structure ExecOutcome where
  client : ClientState
  store : Store
  result : Except ExecError HttpResponse
  refreshCalls : Nat
  httpCalls : Nat
deriving DecidableEq

/-- `requests.Response.raise_for_status`: raise for a 4xx/5xx status, else
return the response unchanged. -/
def raise_for_status (r : HttpResponse) : Except ExecError HttpResponse :=
  if 400 ≤ r.status ∧ r.status < 600 then .error (.httpError r.status) else .ok r

/-- The pre-call phase of `_make_request` (freshbooks.py lines 201-208): if the
token is expired, attempt one refresh; its result value is discarded, so any
failure is swallowed (only the state the refresh left behind is kept). -/
def proactive_refresh (c : ClientState) (store : Store) (env : ExecEnv) :
    PreState :=
  if is_token_expired c env.now then
    let r := refresh_access_token c store (env.refreshResp 0) env.now (env.writeOk 0)
    { client := r.client, store := r.store, refreshCalls := 1 }
  else
    { client := c, store := store, refreshCalls := 0 }

/-- The call-and-retry phase of `_make_request` (freshbooks.py lines 210-242),
entered with `k` refresh attempts already made: issue the request with the
current `Authorization` header; on a 401, attempt one reactive refresh —
propagating its failure — and retry the same request once with the
then-current header; finally `raise_for_status`. -/
def http_phase (c : ClientState) (store : Store) (k : Nat) (req : Req)
    (env : ExecEnv) : ExecOutcome :=
  let resp := env.http 0 req c.authHeader
  if resp.status = 401 then
    let r := refresh_access_token c store (env.refreshResp k) env.now (env.writeOk k)
    match r.result with
    | .error e =>
      { client := r.client, store := r.store, result := .error (.refreshFailed e),
        refreshCalls := k + 1, httpCalls := 1 }
    | .ok _ =>
      let resp2 := env.http 1 req r.client.authHeader
      { client := r.client, store := r.store, result := raise_for_status resp2,
        refreshCalls := k + 1, httpCalls := 2 }
  else
    { client := c, store := store, result := raise_for_status resp,
      refreshCalls := k, httpCalls := 1 }

/-- `FreshBooksClient._make_request` (freshbooks.py lines 183-242): the
proactive phase followed by the call-and-retry phase. -/
def make_request (c : ClientState) (store : Store) (req : Req) (env : ExecEnv) :
    ExecOutcome :=
  http_phase (proactive_refresh c store env).client (proactive_refresh c store env).store
    (proactive_refresh c store env).refreshCalls req env

/-- The `ValueError` message of the `send_invoice` safety check
(freshbooks.py lines 352-357). -/
def sendApprovalMessage : String :=
  "SAFETY CHECK: Invoice cannot be sent without explicit human approval. Set humanApproved=True only after receiving explicit permission from the user. Example: client.send_invoice(invoice_id, humanApproved=True)"

/-- `FreshBooksClient.send_invoice` (freshbooks.py lines 335-367): without
explicit human approval, raise the safety-check `ValueError` before building or
issuing any HTTP request; with approval, issue the PUT send request through
`_make_request`. -/
def send_invoice (c : ClientState) (store : Store) (env : ExecEnv)
    (invoice_id : String) (humanApproved : Bool) : Except String ExecOutcome :=
  if humanApproved = false then
    .error sendApprovalMessage
  else
    .ok (make_request c store
      ⟨"PUT", "/accounting/account/" ++ c.account_id ++ "/invoices/invoices/" ++ invoice_id⟩
      env)

/-- Concrete client for the retry witness: no expiry stored, so the token
counts as expired and the proactive phase refreshes it. -/
def cW : ClientState := ⟨"acc", "t", some "r", none, "Bearer t"⟩

/-- Concrete request for the executor witnesses. -/
def reqW : Req := ⟨"GET", "/x"⟩

/-- Concrete environment for the retry witness: first API call 401, retry 200;
refresh succeeds. -/
def envW : ExecEnv :=
  { now := 0,
    refreshResp := fun _ => ⟨200, ⟨none, some "a2", some "r2", some 100⟩⟩,
    writeOk := fun _ _ => true,
    http := fun i _ _ => if i = 0 then ⟨401, "unauthorized"⟩ else ⟨200, "ok"⟩ }

/-- The proactive-phase state in the retry witness environment. -/
def pW : PreState := proactive_refresh cW [] envW

/-- The reactive refresh result in the retry witness environment. -/
def rW : RefreshResult :=
  refresh_access_token pW.client pW.store (envW.refreshResp pW.refreshCalls)
    envW.now (envW.writeOk pW.refreshCalls)

/-- Concrete client for the proactive-swallow witness: no expiry stored and no
refresh token held, so the proactive refresh fails. -/
def cX : ClientState := ⟨"acc", "t", none, none, "Bearer t"⟩

/-- Concrete environment for the proactive-swallow witness: API always 200. -/
def envX : ExecEnv :=
  { now := 0,
    refreshResp := fun _ => ⟨200, ⟨none, some "a2", some "r2", some 100⟩⟩,
    writeOk := fun _ _ => true,
    http := fun _ _ _ => ⟨200, "ok"⟩ }

/-- The proactive refresh result in the swallow witness environment. -/
def rX : RefreshResult :=
  refresh_access_token cX [] (envX.refreshResp 0) envX.now (envX.writeOk 0)

/-- C1: if any durable write in `atomic_save_tokens` fails, the store after the
call equals the store before the call (restored from the backup) and the error
is re-raised; on a fully successful call the backup is discarded. -/
theorem atomic_save_tokens_rollback (c : ClientState) (store : Store)
    (access refresh : String) (expires_in : Nat) (now : Int) (wok : Nat → Bool) :
    ((∃ i, i < 3 ∧ wok i = false) →
      (atomic_save_tokens c store access refresh expires_in now wok).store = store ∧
      (atomic_save_tokens c store access refresh expires_in now wok).error.isSome = true) ∧
    ((∀ i, i < 3 → wok i = true) →
      (atomic_save_tokens c store access refresh expires_in now wok).error = none ∧
      (atomic_save_tokens c store access refresh expires_in now wok).backupExists = false) := by
  constructor
  · rintro ⟨i, hi, hfail⟩
    have hcase : i = 0 ∨ i = 1 ∨ i = 2 := by omega
    cases h0 : wok 0 <;> cases h1 : wok 1 <;> cases h2 : wok 2 <;>
      simp [atomic_save_tokens, h0, h1, h2] <;>
      rcases hcase with rfl | rfl | rfl <;> simp_all
  · intro hall
    have h0 := hall 0 (by omega)
    have h1 := hall 1 (by omega)
    have h2 := hall 2 (by omega)
    simp [atomic_save_tokens, h0, h1, h2]

/-- Witness for C1: with the second write failing, the store rolls back; with
all writes succeeding, no error and no backup remain. -/
theorem atomic_save_tokens_rollback_witness :
    (atomic_save_tokens ⟨"acc", "t", some "r", none, "Bearer t"⟩ [("K", "v")]
      "a2" "r2" 60 1000 (fun i => i == 0)).store = [("K", "v")] ∧
    (atomic_save_tokens ⟨"acc", "t", some "r", none, "Bearer t"⟩ [("K", "v")]
      "a2" "r2" 60 1000 (fun _ => true)).error = none := by
  have h := atomic_save_tokens_rollback ⟨"acc", "t", some "r", none, "Bearer t"⟩
    [("K", "v")] "a2" "r2" 60 1000 (fun i => i == 0)
  have h2 := atomic_save_tokens_rollback ⟨"acc", "t", some "r", none, "Bearer t"⟩
    [("K", "v")] "a2" "r2" 60 1000 (fun _ => true)
  exact ⟨(h.1 ⟨1, by decide, by decide⟩).1, (h2.2 (fun i _ => rfl)).1⟩

/-- C2: `atomic_save_tokens` updates the in-memory credential state
(access token, refresh token, expiry, `Authorization` header) only after all
three durable writes succeed; if any write fails, the in-memory state is left
unchanged. -/
theorem atomic_save_tokens_memory (c : ClientState) (store : Store)
    (access refresh : String) (expires_in : Nat) (now : Int) (wok : Nat → Bool) :
    ((∃ i, i < 3 ∧ wok i = false) →
      (atomic_save_tokens c store access refresh expires_in now wok).client = c) ∧
    ((∀ i, i < 3 → wok i = true) →
      (atomic_save_tokens c store access refresh expires_in now wok).client =
        { c with
            access_token := access,
            refresh_token := some refresh,
            token_expires_at := some (toString (now + (expires_in : Int))),
            authHeader := "Bearer " ++ access }) := by
  constructor
  · rintro ⟨i, hi, hfail⟩
    have hcase : i = 0 ∨ i = 1 ∨ i = 2 := by omega
    cases h0 : wok 0 <;> cases h1 : wok 1 <;> cases h2 : wok 2 <;>
      simp [atomic_save_tokens, h0, h1, h2] <;>
      rcases hcase with rfl | rfl | rfl <;> simp_all
  · intro hall
    have h0 := hall 0 (by omega)
    have h1 := hall 1 (by omega)
    have h2 := hall 2 (by omega)
    simp [atomic_save_tokens, h0, h1, h2]

/-- Witness for C2: with the third write failing the in-memory state is
unchanged; with all writes succeeding it carries the new pair. -/
theorem atomic_save_tokens_memory_witness :
    (atomic_save_tokens ⟨"acc", "t", some "r", none, "Bearer t"⟩ []
      "a2" "r2" 60 1000 (fun i => i != 2)).client =
      ⟨"acc", "t", some "r", none, "Bearer t"⟩ ∧
    (atomic_save_tokens ⟨"acc", "t", some "r", none, "Bearer t"⟩ []
      "a2" "r2" 60 1000 (fun _ => true)).client =
      ⟨"acc", "a2", some "r2", some "1060", "Bearer a2"⟩ := by
  have h := atomic_save_tokens_memory ⟨"acc", "t", some "r", none, "Bearer t"⟩
    [] "a2" "r2" 60 1000 (fun i => i != 2)
  have h2 := atomic_save_tokens_memory ⟨"acc", "t", some "r", none, "Bearer t"⟩
    [] "a2" "r2" 60 1000 (fun _ => true)
  refine ⟨h.1 ⟨2, by decide, by decide⟩, ?_⟩
  rw [h2.2 (fun i _ => rfl)]
  decide

/-- C4: `is_token_expired` returns true exactly when the stored expiry is
absent (falsy), or does not parse as a number, or the current time is past the
expiry minus the 300-second safety margin. -/
theorem is_token_expired_spec (c : ClientState) (now : Int) :
    is_token_expired c now = true ↔
      c.token_expires_at = none ∨
      (∃ s, c.token_expires_at = some s ∧ s.toInt? = none) ∨
      (∃ s e, c.token_expires_at = some s ∧ s.toInt? = some e ∧ e - 300 < now) := by
  cases hx : c.token_expires_at with
  | none => simp [is_token_expired, hx]
  | some s =>
    by_cases hs : s == ""
    · have hs' : s = "" := by simpa using hs
      subst hs'
      simp [is_token_expired, hx]
      exact Or.inl (by decide)
    · cases hp : s.toInt? with
      | none => simp_all [is_token_expired, hx, hp]
      | some e => simp_all [is_token_expired, hx, hp]

/-- C5: on a non-success token-endpoint response whose body carries
`error = "invalid_grant"`, `refresh_access_token` fails with the
invalid-refresh-token error, whose message includes the need for manual
re-authorization, and leaves the store (and in-memory state) unchanged. -/
theorem refresh_invalid_grant (c : ClientState) (store : Store)
    (resp : AuthResponse) (now : Int) (wok : Nat → Bool)
    (hrt : pyFalsy c.refresh_token = false)
    (hs : resp.status ≠ 200)
    (he : resp.body.error = some "invalid_grant") :
    refresh_access_token c store resp now wok =
      { client := c, store := store, result := .error .RefreshTokenInvalid,
        networkCalled := true } ∧
    ∃ pre post, errorMessage .RefreshTokenInvalid =
      pre ++ "Manual re-authentication required." ++ post := by
  refine ⟨by simp [refresh_access_token, hrt, hs, he], ?_⟩
  exact ⟨"Refresh token is invalid (already used or revoked).\n",
    "\nThis usually happens when:\n1. The refresh token was used but new token wasn\x27t saved\n2. Multiple processes tried to refresh simultaneously\n3. The token was manually revoked\n\nTo fix: Get a new auth code and run: python freshbooks.py AUTH_CODE",
    rfl⟩

/-- Witness for C5: a concrete 400 `invalid_grant` reply leaves a concrete
store unchanged and raises the invalid-refresh-token error. -/
theorem refresh_invalid_grant_witness :
    refresh_access_token ⟨"acc", "t", some "r", none, "Bearer t"⟩ [("K", "v")]
      ⟨400, ⟨some "invalid_grant", none, none, none⟩⟩ 1000 (fun _ => true) =
      { client := ⟨"acc", "t", some "r", none, "Bearer t"⟩, store := [("K", "v")],
        result := .error .RefreshTokenInvalid, networkCalled := true } := by
  exact (refresh_invalid_grant ⟨"acc", "t", some "r", none, "Bearer t"⟩ [("K", "v")]
    ⟨400, ⟨some "invalid_grant", none, none, none⟩⟩ 1000 (fun _ => true)
    (by decide) (by decide) rfl).1

/-- C7: `refresh_access_token` called while no refresh token is held (falsy)
fails with the no-refresh-token error, performs no network call, and leaves
the store unchanged. -/
theorem refresh_no_refresh_token (c : ClientState) (store : Store)
    (resp : AuthResponse) (now : Int) (wok : Nat → Bool)
    (h : pyFalsy c.refresh_token = true) :
    refresh_access_token c store resp now wok =
      { client := c, store := store, result := .error .NoRefreshToken,
        networkCalled := false } := by
  simp [refresh_access_token, h]

/-- Witness for C7: a client holding no refresh token fails without touching
the network. -/
theorem refresh_no_refresh_token_witness :
    refresh_access_token ⟨"acc", "t", none, none, "Bearer t"⟩ []
      ⟨200, ⟨none, some "a", some "r", none⟩⟩ 0 (fun _ => true) =
      { client := ⟨"acc", "t", none, none, "Bearer t"⟩, store := [],
        result := .error .NoRefreshToken, networkCalled := false } :=
  refresh_no_refresh_token ⟨"acc", "t", none, none, "Bearer t"⟩ []
    ⟨200, ⟨none, some "a", some "r", none⟩⟩ 0 (fun _ => true) rfl

/-- C8: on a non-success (4xx/5xx) token-endpoint response whose body does not
carry `error = "invalid_grant"`, `refresh_access_token` fails with the
auth-server error, surfaced to the caller, and leaves the store unchanged. -/
theorem refresh_auth_server_error (c : ClientState) (store : Store)
    (resp : AuthResponse) (now : Int) (wok : Nat → Bool)
    (hrt : pyFalsy c.refresh_token = false)
    (h4 : 400 ≤ resp.status) (h6 : resp.status < 600)
    (he : resp.body.error ≠ some "invalid_grant") :
    refresh_access_token c store resp now wok =
      { client := c, store := store, result := .error (.AuthServerError resp.status),
        networkCalled := true } := by
  have hs : resp.status ≠ 200 := by omega
  simp [refresh_access_token, hrt, hs, he, h4, h6]

/-- Witness for C8: a concrete 500 reply with no `invalid_grant` marker is
surfaced as the auth-server error with the store unchanged. -/
theorem refresh_auth_server_error_witness :
    refresh_access_token ⟨"acc", "t", some "r", none, "Bearer t"⟩ [("K", "v")]
      ⟨500, ⟨none, none, none, none⟩⟩ 1000 (fun _ => true) =
      { client := ⟨"acc", "t", some "r", none, "Bearer t"⟩, store := [("K", "v")],
        result := .error (.AuthServerError 500), networkCalled := true } :=
  refresh_auth_server_error ⟨"acc", "t", some "r", none, "Bearer t"⟩ [("K", "v")]
    ⟨500, ⟨none, none, none, none⟩⟩ 1000 (fun _ => true)
    (by decide) (by decide) (by decide) (by decide)

/-- C6: on a 200 token-endpoint response, a body lacking (Python-falsy) either
the new access token or the new refresh token fails with the malformed-response
error and leaves the store unchanged; when both are present, the new pair and
the `expires_in` of the response (default 43200) are passed to `atomic_save_tokens`,
which computes `expires_at = now + expires_in`. -/
theorem refresh_token_response_validation (c : ClientState) (store : Store)
    (resp : AuthResponse) (now : Int) (wok : Nat → Bool)
    (hrt : pyFalsy c.refresh_token = false)
    (hs : resp.status = 200) :
    ((pyFalsy resp.body.access_token || pyFalsy resp.body.refresh_token) = true →
      refresh_access_token c store resp now wok =
        { client := c, store := store, result := .error .MalformedTokenResponse,
          networkCalled := true }) ∧
    (∀ a r, resp.body.access_token = some a → resp.body.refresh_token = some r →
      a ≠ "" → r ≠ "" →
      (refresh_access_token c store resp now wok).client =
        (atomic_save_tokens c store a r (resp.body.expires_in.getD 43200) now wok).client ∧
      (refresh_access_token c store resp now wok).store =
        (atomic_save_tokens c store a r (resp.body.expires_in.getD 43200) now wok).store) := by
  constructor
  · intro hmiss
    simp [refresh_access_token, hrt, hs, processTokenData, hmiss]
  · intro a r ha hr hane hrne
    have hmiss : (pyFalsy resp.body.access_token || pyFalsy resp.body.refresh_token) = false := by
      simp [pyFalsy, ha, hr, hane, hrne]
    simp only [refresh_access_token, hrt, hs, Bool.false_eq_true, if_false,
      ne_eq, not_true_eq_false, if_true, processTokenData, hmiss]
    simp [ha, hr]
    cases hsr : (atomic_save_tokens c store a r (resp.body.expires_in.getD 43200) now wok).error <;>
      simp [hsr]

/-- Witness for C6: a concrete 200 reply missing the new refresh token fails
with the malformed-response error and leaves a concrete store unchanged. -/
theorem refresh_token_response_validation_witness :
    refresh_access_token ⟨"acc", "t", some "r", none, "Bearer t"⟩ [("K", "v")]
      ⟨200, ⟨none, some "a2", none, none⟩⟩ 1000 (fun _ => true) =
      { client := ⟨"acc", "t", some "r", none, "Bearer t"⟩, store := [("K", "v")],
        result := .error .MalformedTokenResponse, networkCalled := true } :=
  (refresh_token_response_validation ⟨"acc", "t", some "r", none, "Bearer t"⟩
    [("K", "v")] ⟨200, ⟨none, some "a2", none, none⟩⟩ 1000 (fun _ => true)
    (by decide) rfl).1 (by decide)

/-- Helper: when `atomic_save_tokens` re-raises, it leaves both the in-memory
state and the store unchanged. -/
theorem atomic_save_tokens_error_state (c : ClientState) (store : Store)
    (access refresh : String) (expires_in : Nat) (now : Int) (wok : Nat → Bool) :
    ∀ e, (atomic_save_tokens c store access refresh expires_in now wok).error = some e →
      (atomic_save_tokens c store access refresh expires_in now wok).client = c ∧
      (atomic_save_tokens c store access refresh expires_in now wok).store = store := by
  intro e
  cases h0 : wok 0 <;> cases h1 : wok 1 <;> cases h2 : wok 2 <;>
    simp_all [atomic_save_tokens]

/-- Helper: when the token-data tail raises, it leaves the state and store
unchanged. -/
theorem processTokenData_error_state (c : ClientState) (store : Store)
    (body : TokenBody) (now : Int) (wok : Nat → Bool) :
    ∀ e, (processTokenData c store body now wok).result = .error e →
      (processTokenData c store body now wok).client = c ∧
      (processTokenData c store body now wok).store = store := by
  intro e
  unfold processTokenData
  by_cases hmiss : (pyFalsy body.access_token || pyFalsy body.refresh_token) = true
  · simp [hmiss]
  · rw [Bool.not_eq_true] at hmiss
    cases hsr : (atomic_save_tokens c store (body.access_token.getD "")
        (body.refresh_token.getD "") (body.expires_in.getD 43200) now wok).error with
    | none => simp [hmiss, hsr]
    | some se =>
      have hst := atomic_save_tokens_error_state c store (body.access_token.getD "")
        (body.refresh_token.getD "") (body.expires_in.getD 43200) now wok se hsr
      simp [hmiss, hsr, hst.1, hst.2]

/-- Helper: when `refresh_access_token` raises, it leaves both the in-memory
state and the store unchanged. -/
theorem refresh_error_state (c : ClientState) (store : Store)
    (resp : AuthResponse) (now : Int) (wok : Nat → Bool) :
    ∀ e, (refresh_access_token c store resp now wok).result = .error e →
      (refresh_access_token c store resp now wok).client = c ∧
      (refresh_access_token c store resp now wok).store = store := by
  intro e he
  by_cases hrt : pyFalsy c.refresh_token = true
  · simp [refresh_access_token, hrt]
  · rw [Bool.not_eq_true] at hrt
    by_cases hs : resp.status = 200
    · rw [refresh_access_token] at he ⊢
      simp only [hrt, Bool.false_eq_true, if_false, hs, ne_eq, not_true_eq_false] at he ⊢
      exact processTokenData_error_state c store resp.body now wok e he
    · by_cases hinv : resp.body.error = some "invalid_grant"
      · simp [refresh_access_token, hrt, hs, hinv]
      · by_cases hbound : 400 ≤ resp.status ∧ resp.status < 600
        · simp [refresh_access_token, hrt, hs, hinv, hbound]
        · rw [refresh_access_token] at he ⊢
          simp only [hrt, Bool.false_eq_true, if_false, hs, ne_eq,
            not_false_eq_true, if_true, hinv, hbound] at he ⊢
          exact processTokenData_error_state c store resp.body now wok e he

/-- Helper: the call-and-retry phase always issues one or two HTTP calls. -/
theorem http_phase_httpCalls (c : ClientState) (store : Store) (k : Nat)
    (req : Req) (env : ExecEnv) :
    (http_phase c store k req env).httpCalls = 1 ∨
    (http_phase c store k req env).httpCalls = 2 := by
  unfold http_phase
  cases hr : (refresh_access_token c store (env.refreshResp k) env.now (env.writeOk k)).result <;>
    by_cases h : (env.http 0 req c.authHeader).status = 401 <;>
      simp [h, hr]

/-- Helper: `_make_request` always issues at least one HTTP call. -/
theorem make_request_httpCalls_pos (c : ClientState) (store : Store)
    (req : Req) (env : ExecEnv) :
    1 ≤ (make_request c store req env).httpCalls := by
  unfold make_request
  rcases http_phase_httpCalls (proactive_refresh c store env).client
    (proactive_refresh c store env).store (proactive_refresh c store env).refreshCalls
    req env with h | h <;> omega

/-- C3: when the initial API call (after the proactive phase) returns 401,
exactly one reactive refresh is attempted; if it fails, that failure is
propagated and no retry occurs; if it succeeds, the same request is retried
exactly once with the then-current token and the retry response is surfaced
through `raise_for_status` (200 is returned, 4xx/5xx raised as-is); a non-401
initial status is likewise surfaced as-is; at most one retry (two HTTP calls)
ever occurs. -/
theorem make_request_retry_on_401 (c : ClientState) (store : Store) (req : Req)
    (env : ExecEnv) (c1 : ClientState) (store1 : Store) (k : Nat) (r : RefreshResult)
    (hp : proactive_refresh c store env = ⟨c1, store1, k⟩)
    (hr : refresh_access_token c1 store1 (env.refreshResp k) env.now (env.writeOk k) = r) :
    ((env.http 0 req c1.authHeader).status = 401 →
      (∀ e, r.result = .error e →
        make_request c store req env =
          { client := r.client, store := r.store, result := .error (.refreshFailed e),
            refreshCalls := k + 1, httpCalls := 1 }) ∧
      (∀ body, r.result = .ok body →
        make_request c store req env =
          { client := r.client, store := r.store,
            result := raise_for_status (env.http 1 req r.client.authHeader),
            refreshCalls := k + 1, httpCalls := 2 })) ∧
    ((env.http 0 req c1.authHeader).status ≠ 401 →
      make_request c store req env =
        { client := c1, store := store1,
          result := raise_for_status (env.http 0 req c1.authHeader),
          refreshCalls := k, httpCalls := 1 }) ∧
    (make_request c store req env).httpCalls ≤ 2 := by
  have hm : make_request c store req env = http_phase c1 store1 k req env := by
    unfold make_request
    rw [hp]
  refine ⟨?_, ?_, ?_⟩
  · intro h401
    constructor
    · intro e he
      rw [hm]
      unfold http_phase
      rw [hr]
      simp [h401, he]
    · intro body hb
      rw [hm]
      unfold http_phase
      rw [hr]
      simp [h401, hb]
  · intro h401
    rw [hm]
    unfold http_phase
    simp [h401]
  · rw [hm]
    rcases http_phase_httpCalls c1 store1 k req env with h | h <;> omega

/-- Witness for C3: initial 401 then 200 on retry; the call returns the 200
response after exactly one refresh and one retry (two HTTP calls). -/
theorem make_request_retry_on_401_witness :
    (make_request cW [] reqW envW).result = .ok ⟨200, "ok"⟩ ∧
    (make_request cW [] reqW envW).httpCalls = 2 := by
  have h := make_request_retry_on_401 cW [] reqW envW pW.client pW.store
    pW.refreshCalls rW rfl rfl
  have h2 := (h.1 (by decide)).2 ⟨none, some "a2", some "r2", some 100⟩ (by decide)
  rw [h2]
  exact ⟨by decide, rfl⟩

/-- C9: when the token is expired before the call, exactly one proactive
refresh is attempted before the HTTP call; if that refresh fails, the
in-memory state and the store are unchanged and execution proceeds through the
call-and-retry phase with the existing access token — the proactive failure is
swallowed, never propagated. -/
theorem make_request_proactive_swallow (c : ClientState) (store : Store)
    (req : Req) (env : ExecEnv) (r : RefreshResult)
    (hexp : is_token_expired c env.now = true)
    (hr : refresh_access_token c store (env.refreshResp 0) env.now (env.writeOk 0) = r) :
    proactive_refresh c store env = ⟨r.client, r.store, 1⟩ ∧
    (∀ e, r.result = .error e →
      r.client = c ∧ r.store = store ∧
      make_request c store req env = http_phase c store 1 req env) := by
  have hp : proactive_refresh c store env = ⟨r.client, r.store, 1⟩ := by
    unfold proactive_refresh
    rw [hr] at *
    simp [hexp]
  refine ⟨hp, ?_⟩
  intro e he
  have hstate := refresh_error_state c store (env.refreshResp 0) env.now (env.writeOk 0) e
    (by rw [hr]; exact he)
  rw [hr] at hstate
  refine ⟨hstate.1, hstate.2, ?_⟩
  unfold make_request
  rw [hp, hstate.1, hstate.2]

/-- Witness for C9: an expired credential with no refresh token held; the
proactive refresh fails, is swallowed, and the call proceeds unchanged. -/
theorem make_request_proactive_swallow_witness :
    proactive_refresh cX [] envX = ⟨cX, [], 1⟩ ∧
    make_request cX [] reqW envX = http_phase cX [] 1 reqW envX := by
  have h := make_request_proactive_swallow cX [] reqW envX rX (by decide) rfl
  have h2 := h.2 RefreshError.NoRefreshToken (by decide)
  refine ⟨?_, h2.2.2⟩
  rw [h.1]
  decide

/-- C10: `send_invoice` with `humanApproved = false` (the default) raises the
safety-check `ValueError`, whose message contains the explicit-human-approval
guidance, and issues no HTTP request; with `humanApproved = true` the PUT send
request is issued (at least one HTTP call). -/
theorem send_invoice_requires_approval (c : ClientState) (store : Store)
    (env : ExecEnv) (invoice_id : String) :
    (send_invoice c store env invoice_id false = .error sendApprovalMessage ∧
      (∃ pre post, sendApprovalMessage = pre ++ "explicit human approval" ++ post)) ∧
    (∃ out, send_invoice c store env invoice_id true = .ok out ∧ 1 ≤ out.httpCalls) := by
  refine ⟨⟨rfl, ⟨"SAFETY CHECK: Invoice cannot be sent without ",
    ". Set humanApproved=True only after receiving explicit permission from the user. Example: client.send_invoice(invoice_id, humanApproved=True)",
    rfl⟩⟩, ?_⟩
  refine ⟨make_request c store
    ⟨"PUT", "/accounting/account/" ++ c.account_id ++ "/invoices/invoices/" ++ invoice_id⟩
    env, rfl, ?_⟩
  exact make_request_httpCalls_pos c store
    ⟨"PUT", "/accounting/account/" ++ c.account_id ++ "/invoices/invoices/" ++ invoice_id⟩ env

/-- Witness for C10: with a concrete client and environment, an unapproved send
raises the safety-check error. -/
theorem send_invoice_requires_approval_witness :
    send_invoice cW [] envW "00000835" false = .error sendApprovalMessage :=
  (send_invoice_requires_approval cW [] envW "00000835").1.1
